import Mathlib

/-!
Verification of the resilient remote-collection executor of
`dd-intelligence-assistant` (`src/data_acquisition_engine/core/`):
rate limiter, circuit breaker, retry handler and the
`collect_with_protection` composition of `base_collector.py`.

Conventions of the shallow embedding:
- Python floats (timestamps, delays, scores) are modelled as rationals.
- Python exceptions are modelled by `Exc` (a class tag plus a message);
  `isinstance` models the Python subclass test for the classes that occur
  in the code (`ConnectionError` and `TimeoutError` are subclasses of
  `OSError`; every class is a subclass of `Exception`).
- Fallible code returns `Except Exc A`.
- Side-effect-only code (structlog logging, event publishing - whose
  failures `_publish_collection_event` swallows - and the `on_retry`
  telemetry callback, whose failures the retry loop swallows) cannot
  influence control flow or results in the source and is not modelled.
- Nondeterminism from `random.uniform(0.8, 1.2)` is an explicit jitter
  input `jf`; wall-clock readings are explicit time arguments.
-/

/-- Model of the Python exception classes used by the engine.
`custom n` stands for any other user/library exception class. -/
inductive ExcClass where
  | connectionError
  | timeoutError
  | osError
  | exception
  | circuitBreakerOpenError
  | custom (n : Nat)
deriving DecidableEq, Repr

/-- Python `isinstance(e, cls)` restricted to the classes of the model:
`ConnectionError <: OSError`, `TimeoutError <: OSError` (Python >= 3.10),
everything `<: Exception`; other classes only match themselves. -/
def isinstance (sub sup : ExcClass) : Bool :=
  match sup with
  | .exception => true
  | .osError =>
      decide (sub = .osError) || decide (sub = .connectionError) ||
        decide (sub = .timeoutError)
  | s => decide (sub = s)

/-- A Python exception value: its class and its `str(e)` rendering. -/
structure Exc where
  cls : ExcClass
  msg : String
deriving DecidableEq, Repr

/-! ## retry_handler.py -/

/-- `RetryStrategy` enum of `retry_handler.py`. -/
inductive RetryStrategy where
  | exponential
  | linear
  | constant
  | fibonacci
deriving DecidableEq, Repr

/-- `RetryConfig` dataclass. `retryable_exceptions = none` models the
Python default `None` (replaced by the default list in
`RetryHandler.__init__`). The `on_retry` telemetry callback is not
modelled (its exceptions are swallowed by the loop). -/
structure RetryConfig where
  max_attempts : Nat := 3
  base_delay : ℚ := 1
  max_delay : ℚ := 60
  strategy : RetryStrategy := .exponential
  jitter : Bool := true
  backoff_factor : ℚ := 2
  retryable_exceptions : Option (List ExcClass) := none
deriving DecidableEq, Repr

/-- The default retryable list installed by `RetryHandler.__init__` when
the config leaves `retryable_exceptions` as `None`. -/
def defaultRetryable : List ExcClass :=
  [.connectionError, .timeoutError, .osError, .exception]

/-- The retryable list the handler actually uses after `__init__`. -/
def effectiveRetryable (cfg : RetryConfig) : List ExcClass :=
  cfg.retryable_exceptions.getD defaultRetryable

/-- `RetryHandler._is_retryable`: `any(isinstance(e, t) for t in list)`. -/
def isRetryable (cfg : RetryConfig) (e : Exc) : Bool :=
  (effectiveRetryable cfg).any (fun t => isinstance e.cls t)

/-- `RetryHandler._fibonacci` (the recursive Fibonacci of the source). -/
def fibonacci : Nat → Nat
  | 0 => 0
  | 1 => 1
  | n + 2 => fibonacci (n + 1) + fibonacci n

/-- `RetryHandler._calculate_delay`. `jf` is the jitter factor drawn from
`random.uniform(0.8, 1.2)`, applied only when `cfg.jitter` is set. -/
def calculateDelay (cfg : RetryConfig) (jf : ℚ) (attempt : Nat) : ℚ :=
  let d :=
    match cfg.strategy with
    | .exponential => cfg.base_delay * cfg.backoff_factor ^ (attempt - 1)
    | .linear => cfg.base_delay * attempt
    | .constant => cfg.base_delay
    | .fibonacci => cfg.base_delay * (fibonacci attempt : ℚ)
  let d := if cfg.jitter then d * jf else d
  min d cfg.max_delay

/-- Outcome of one run of `RetryHandler.execute`: final result, number of
invocations of the operation, the computed backoff delays (in order,
post-jitter, post-clamp) and the threaded state of the operation. -/
structure RetryRun (σ : Type) (A : Type) where
  outcome : Except Exc A
  invocations : Nat
  delays : List ℚ
  finalState : σ
deriving Repr

/-- The `for attempt in range(1, max_attempts + 1)` loop of
`RetryHandler.execute`. `attempt` is the 1-based attempt index,
`remaining` the number of attempts still available including the current
one, `inv`/`ds` the invocations and delays accumulated so far. The
`remaining = 0` base case is the unreachable `raise last_exception`
after the loop (reached only when `max_attempts = 0`, where Python would
raise `TypeError` from `raise None`). -/
def retryLoop {σ A : Type} (cfg : RetryConfig) (jf : Nat → ℚ)
    (op : Nat → σ → Except Exc A × σ) :
    Nat → Nat → σ → Nat → List ℚ → RetryRun σ A
  | _, 0, s, inv, ds => ⟨.error ⟨.exception, "NoneType: None"⟩, inv, ds, s⟩
  | attempt, remaining + 1, s, inv, ds =>
    match op attempt s with
    | (.ok a, s1) => ⟨.ok a, inv + 1, ds, s1⟩
    | (.error e, s1) =>
      if isRetryable cfg e then
        if remaining = 0 then
          ⟨.error e, inv + 1, ds, s1⟩
        else
          retryLoop cfg jf op (attempt + 1) remaining s1 (inv + 1)
            (ds ++ [calculateDelay cfg (jf attempt) attempt])
      else
        ⟨.error e, inv + 1, ds, s1⟩

/-- `RetryHandler.execute` over a state-threading operation (the operation
passed by `collect_with_protection` mutates circuit-breaker state). -/
def executeS {σ A : Type} (cfg : RetryConfig) (jf : Nat → ℚ)
    (op : Nat → σ → Except Exc A × σ) (s : σ) : RetryRun σ A :=
  retryLoop cfg jf op 1 cfg.max_attempts s 0 []

/-- `RetryHandler.execute` over a pure (stateless) operation. -/
def execute {A : Type} (cfg : RetryConfig) (jf : Nat → ℚ)
    (op : Nat → Except Exc A) : RetryRun Unit A :=
  executeS cfg jf (fun n s => (op n, s)) ()

/-- `RetryConfigs.api_call` preset of `retry_handler.py`. -/
def RetryConfigs.api_call : RetryConfig :=
  { max_attempts := 3, base_delay := 1, max_delay := 30,
    strategy := .exponential, jitter := true,
    retryable_exceptions := some [.connectionError, .timeoutError, .osError] }

/-- The `RetryConfig` built by `BaseCollector._init_retry_handler` for any
strategy other than `api_call` / `web_scraping`: `retryable_exceptions`
is left unset, so it defaults to `None`. -/
def initRetryHandlerConfig (maxAttempts : Nat) (baseDelay maxDelay : ℚ)
    (jitter : Bool) : RetryConfig :=
  { max_attempts := maxAttempts, base_delay := baseDelay,
    max_delay := maxDelay, jitter := jitter }

/-! ## rate_limiter.py

The limiter keeps, per key, a Redis sorted set. `is_allowed` adds entries
with `zadd(key, {str(current_time): cost})`, i.e. the set member is the
stringified timestamp and the set SCORE is the cost. All score-based
reads (`zremrangebyscore`, the score sum over `zrange ... withscores`,
`zrangebyscore` in `_get_remaining_time`) therefore operate on costs,
not timestamps. The model reproduces exactly that: an entry is
`(member, score)` where `member` is the (injectively stringified)
timestamp, modelled as the rational itself, and `score` is the cost. -/

/-- A Redis sorted set for one rate-limit key: `(member, score)` pairs. -/
abbrev ZSet : Type := List (ℚ × ℚ)

/-- Redis `ZREMRANGEBYSCORE key lo hi`: drop entries with score in
`[lo, hi]`. -/
def zremrangebyscore (z : ZSet) (lo hi : ℚ) : ZSet :=
  List.filter (fun e => decide (e.2 < lo) || decide (hi < e.2)) z

/-- Sum of scores, as computed from `zrange(key, 0, -1, withscores=True)`. -/
def sumScores (z : ZSet) : ℚ :=
  (List.map Prod.snd z).sum

/-- Redis `ZADD key {member: score}`: update or insert the member. -/
def zadd (z : ZSet) (member score : ℚ) : ZSet :=
  if List.any z (fun e => decide (e.1 = member)) then
    List.map (fun e => if e.1 = member then (member, score) else e) z
  else
    z ++ [(member, score)]

/-- Redis `ZSCORE key member`. -/
def zscore (z : ZSet) (member : ℚ) : Option ℚ :=
  (List.find? (fun e => decide (e.1 = member)) z).map Prod.snd

/-- `RateLimitConfig` dataclass. -/
structure RateLimitConfig where
  max_requests : Nat
  window_seconds : Nat
  burst_size : Nat := 0
  cost_per_request : Nat := 1
deriving DecidableEq, Repr

/-- The rate-limit info dict returned by `RateLimiter.is_allowed`
(the fields the engine reads). -/
structure RateLimitInfo where
  allowed : Bool
  current_score : ℚ
  limit : Nat
  retry_after : ℚ := 0
deriving DecidableEq, Repr

/-- `RateLimiter._get_remaining_time`: the first (lowest-score) entry of
`zrangebyscore(key, window_start, +inf)` and its SCORE taken as the
oldest request time. -/
def getRemainingTime (cfg : RateLimitConfig) (now : ℚ) (z : ZSet)
    (windowStart : ℚ) : ℚ :=
  let scores := List.map Prod.snd
    (List.filter (fun e => decide (windowStart ≤ e.2)) z)
  match scores.min? with
  | some oldest => (cfg.window_seconds : ℚ) - (now - oldest)
  | none => 0

/-- `RateLimiter.is_allowed` (happy path; the fail-open handler for store
errors is not modelled since the model store cannot fail). Returns
(allowed, store after the call, info). The pipelined
`zremrangebyscore` executes and persists in both branches; `zadd` and
`expire` run only on admission (expiry bookkeeping does not change the
member set and is not modelled). -/
def is_allowed (cfg : RateLimitConfig) (now : ℚ) (store : ZSet)
    (cost : ℚ := 1) : Bool × ZSet × RateLimitInfo :=
  let windowStart := now - (cfg.window_seconds : ℚ)
  let store1 := zremrangebyscore store 0 windowStart
  let currentScore := sumScores store1
  if (cfg.max_requests : ℚ) < currentScore + cost then
    let remaining := getRemainingTime cfg now store1 windowStart
    (false, store1,
      { allowed := false, current_score := currentScore,
        limit := cfg.max_requests, retry_after := remaining })
  else
    (true, zadd store1 now cost,
      { allowed := true, current_score := currentScore + cost,
        limit := cfg.max_requests, retry_after := 0 })

/-- The status dict of `RateLimiter.get_status`. -/
structure RateLimitStatus where
  current_count : Nat
  current_score : ℚ
  limit : Nat
  window_seconds : Nat
  remaining_requests : ℚ
  reset_time : ℚ
deriving DecidableEq, Repr

/-- `RateLimiter.get_status`: prunes with `zremrangebyscore(key, 0,
window_start)` (a write against the shared store), then reports
`zcard` and `zscore(key, str(current_time))`. Returns the status and
the store as it is left after the call. -/
def get_status (cfg : RateLimitConfig) (now : ℚ) (store : ZSet) :
    RateLimitStatus × ZSet :=
  let windowStart := now - (cfg.window_seconds : ℚ)
  let store1 := zremrangebyscore store 0 windowStart
  let currentCount := store1.length
  let currentScore := (zscore store1 now).getD 0
  ({ current_count := currentCount, current_score := currentScore,
     limit := cfg.max_requests, window_seconds := cfg.window_seconds,
     remaining_requests := max 0 ((cfg.max_requests : ℚ) - currentScore),
     reset_time := now + (cfg.window_seconds : ℚ) }, store1)

/-- Sequential driver: feed `(time, cost)` requests to `is_allowed` one
after another, collecting `(time, cost, allowed)` outcomes. -/
def runAdmissions (cfg : RateLimitConfig) (store : ZSet)
    (reqs : List (ℚ × ℚ)) : ZSet × List (ℚ × ℚ × Bool) :=
  reqs.foldl
    (fun acc r =>
      let step := is_allowed cfg r.1 acc.1 r.2
      (step.2.1, acc.2 ++ [(r.1, r.2, step.1)]))
    (store, [])

/-- Total cost of admitted requests whose timestamps lie in the trailing
window `(now - windowSeconds, now]`. -/
def admittedCostWithin (res : List (ℚ × ℚ × Bool)) (now windowSeconds : ℚ) :
    ℚ :=
  (List.map (fun r => r.2.1)
    (List.filter
      (fun r => r.2.2 && decide (now - windowSeconds < r.1) &&
        decide (r.1 ≤ now)) res)).sum

/-! ## circuit_breaker.py -/

/-- `CircuitState` enum; `opened` models the Python member `OPEN`
(`open` is a Lean keyword). -/
inductive CircuitState where
  | closed
  | opened
  | halfOpen
deriving DecidableEq, Repr

/-- The `.value` string of a `CircuitState` member. -/
def stateValue : CircuitState → String
  | .closed => "closed"
  | .opened => "open"
  | .halfOpen => "half_open"

/-- `CircuitBreakerConfig` dataclass. -/
structure CircuitBreakerConfig where
  failure_threshold : Nat := 5
  recovery_timeout : ℚ := 60
  expected_exception : ExcClass := .exception
  success_threshold : Nat := 2
deriving DecidableEq, Repr

/-- The mutable fields of a `CircuitBreaker` instance (`self.name` and
the state/statistics attributes set in `__init__`). -/
structure CBState where
  name : String
  state : CircuitState
  failure_count : Nat
  success_count : Nat
  last_failure_time : ℚ
  last_state_change : ℚ
  total_requests : Nat
  total_failures : Nat
  total_successes : Nat
deriving DecidableEq, Repr

/-- A freshly constructed `CircuitBreaker` (`__init__` at time `now`). -/
def cbInit (name : String) (now : ℚ) : CBState :=
  { name := name, state := .closed, failure_count := 0, success_count := 0,
    last_failure_time := 0, last_state_change := now,
    total_requests := 0, total_failures := 0, total_successes := 0 }

/-- `CircuitBreaker._transition_to_open`. -/
def transitionToOpen (s : CBState) (now : ℚ) : CBState :=
  { s with state := .opened, last_state_change := now }

/-- `CircuitBreaker._transition_to_half_open`. -/
def transitionToHalfOpen (s : CBState) (now : ℚ) : CBState :=
  { s with state := .halfOpen, last_state_change := now, success_count := 0 }

/-- `CircuitBreaker._transition_to_closed`. -/
def transitionToClosed (s : CBState) (now : ℚ) : CBState :=
  { s with
    state := .closed
    last_state_change := now
    failure_count := 0
    success_count := 0 }

/-- `CircuitBreaker._can_execute`: returns whether the call may proceed,
together with the state (mutated when an Open breaker whose recovery
timeout has elapsed moves to Half-Open). -/
def canExecute (cfg : CircuitBreakerConfig) (s : CBState) (now : ℚ) :
    Bool × CBState :=
  match s.state with
  | .closed => (true, s)
  | .opened =>
    if cfg.recovery_timeout ≤ now - s.last_failure_time then
      (true, transitionToHalfOpen s now)
    else
      (false, s)
  | .halfOpen => (true, s)

/-- `CircuitBreaker._on_success`. -/
def onSuccess (cfg : CircuitBreakerConfig) (s : CBState) (now : ℚ) :
    CBState :=
  let s := { s with
    success_count := s.success_count + 1
    total_successes := s.total_successes + 1 }
  match s.state with
  | .halfOpen =>
    if cfg.success_threshold ≤ s.success_count then
      transitionToClosed s now
    else s
  | .closed => { s with failure_count := 0 }
  | .opened => s

/-- `CircuitBreaker._on_failure`: only exceptions matching
`config.expected_exception` are counted. -/
def onFailure (cfg : CircuitBreakerConfig) (s : CBState) (now : ℚ)
    (e : Exc) : CBState :=
  if isinstance e.cls cfg.expected_exception then
    let s := { s with
      failure_count := s.failure_count + 1
      total_failures := s.total_failures + 1
      last_failure_time := now }
    match s.state with
    | .closed =>
      if cfg.failure_threshold ≤ s.failure_count then
        transitionToOpen s now
      else s
    | .halfOpen => transitionToOpen s now
    | .opened => s
  else s

/-- The `CircuitBreakerOpenError` raised by `call` when the breaker
rejects the request. -/
def cbOpenError (s : CBState) : Exc :=
  { cls := .circuitBreakerOpenError,
    msg := "Circuit breaker " ++ s.name ++ " is " ++ stateValue s.state }

/-- `CircuitBreaker.call` at time `now`, where `outcome` is what the
wrapped operation would do if invoked. Returns (result, state after the
call, whether the wrapped operation was invoked). -/
def cbCall {A : Type} (cfg : CircuitBreakerConfig) (s : CBState) (now : ℚ)
    (outcome : Except Exc A) : Except Exc A × CBState × Bool :=
  let gate := canExecute cfg s now
  if gate.1 then
    let s1 := { gate.2 with total_requests := gate.2.total_requests + 1 }
    match outcome with
    | .ok a => (.ok a, onSuccess cfg s1 now, true)
    | .error e => (.error e, onFailure cfg s1 now e, true)
  else
    (.error (cbOpenError gate.2), gate.2, false)

/-- A sequence of `call`s that all fail, given as `(time, exception)`
pairs; returns the breaker state left behind. -/
def runFailCalls (cfg : CircuitBreakerConfig) (s : CBState)
    (l : List (ℚ × Exc)) : CBState :=
  l.foldl (fun s te => (cbCall cfg s te.1 (.error te.2 : Except Exc Unit)).2.1) s

/-- A sequence of `call`s that all succeed, at the given times. -/
def runSuccessCalls (cfg : CircuitBreakerConfig) (s : CBState)
    (l : List ℚ) : CBState :=
  l.foldl (fun s t => (cbCall cfg s t (.ok () : Except Exc Unit)).2.1) s

/-! ## base_collector.py -/

/-- `CollectionResult` dataclass. Data items and metadata values are
opaque to the engine and modelled as strings. -/
structure CollectionResult where
  source : String
  data : List String
  metadata : List (String × String)
  quality_score : ℚ
  collection_timestamp : ℚ
  errors : List String
  warnings : List String
  execution_time : ℚ
  cache_hit : Bool := false
  retry_count : Nat := 0
deriving DecidableEq, Repr

/-- The running statistics attributes of a `BaseCollector` instance. -/
structure CollectorStats where
  total_collections : Nat := 0
  successful_collections : Nat := 0
  failed_collections : Nat := 0
  total_execution_time : ℚ := 0
deriving DecidableEq, Repr

/-- Observable protection actions of one `collect_with_protection` call:
the rate-limit check (`is_allowed`, with its cost and verdict) and each
retry-loop invocation of the protected operation. -/
inductive Act where
  | rateCheck (cost : ℚ) (allowed : Bool)
  | attempt (n : Nat)
deriving DecidableEq, Repr

/-- Recognizer for the rate-limit-check action. -/
def Act.isRateCheck : Act → Bool
  | .rateCheck _ _ => true
  | .attempt _ => false

/-- Everything one `collect_with_protection` call produces: the returned
`CollectionResult`, the mutated collector statistics, the rate-limit
store and breaker state left behind, the action trace, and which of the
two exits (success return vs degraded-error return) was taken. -/
structure CWPRun where
  result : CollectionResult
  stats : CollectorStats
  rlStore : ZSet
  cb : CBState
  trace : List Act
  succeeded : Bool
deriving DecidableEq, Repr

/-- `BaseCollector.collect_with_protection`.

Inputs beyond configuration and current state: `startTime`/`endTime` are
the two `datetime.now()` readings, `attemptTime n` the `time.time()`
reading inside the n-th breaker call, `jf n` the jitter draw of the n-th
backoff, and `fetch n` what `self.collect` (via `_protected_collect`,
which only re-raises) would do on its n-th invocation. `corrId` is the
generated correlation id.

The body mirrors the source: one `is_allowed(key)` check with the
default cost 1; on denial an internal `Exception("Rate limit exceeded:
...")` is raised and caught by the enclosing handler, producing the
degraded result; otherwise
`retry_handler.execute(lambda: circuit_breaker.call(...))` runs, and
either exit updates the statistics. All exception paths converge in the
`except` clause, which returns (never raises) a degraded
`CollectionResult`. -/
def collectWithProtection (rlCfg : RateLimitConfig)
    (cbCfg : CircuitBreakerConfig) (retryCfg : RetryConfig)
    (sourceName corrId : String) (stats : CollectorStats) (store : ZSet)
    (cbs : CBState) (startTime endTime : ℚ) (attemptTime : Nat → ℚ)
    (jf : Nat → ℚ) (fetch : Nat → Except Exc CollectionResult) : CWPRun :=
  let gate := is_allowed rlCfg startTime store 1
  let store1 := gate.2.1
  let executionTime := endTime - startTime
  if gate.1 then
    let run := executeS retryCfg jf
      (fun n s =>
        let c := cbCall cbCfg s (attemptTime n) (fetch n)
        (c.1, c.2.1)) cbs
    let attempts := (List.range run.invocations).map (fun i => Act.attempt (i + 1))
    match run.outcome with
    | .ok res =>
      { result := { res with execution_time := executionTime }
        stats := { stats with
          total_collections := stats.total_collections + 1
          successful_collections := stats.successful_collections + 1
          total_execution_time := stats.total_execution_time + executionTime }
        rlStore := store1
        cb := run.finalState
        trace := Act.rateCheck 1 true :: attempts
        succeeded := true }
    | .error e =>
      { result :=
          { source := sourceName, data := []
            metadata := [("error", e.msg), ("correlation_id", corrId)]
            quality_score := 0, collection_timestamp := endTime
            errors := [e.msg], warnings := [], execution_time := executionTime
            cache_hit := false, retry_count := 0 }
        stats := { stats with
          total_collections := stats.total_collections + 1
          failed_collections := stats.failed_collections + 1
          total_execution_time := stats.total_execution_time + executionTime }
        rlStore := store1
        cb := run.finalState
        trace := Act.rateCheck 1 true :: attempts
        succeeded := false }
  else
    let msg := "Rate limit exceeded"
    { result :=
        { source := sourceName, data := []
          metadata := [("error", msg), ("correlation_id", corrId)]
          quality_score := 0, collection_timestamp := endTime
          errors := [msg], warnings := [], execution_time := executionTime
          cache_hit := false, retry_count := 0 }
      stats := { stats with
        total_collections := stats.total_collections + 1
        failed_collections := stats.failed_collections + 1
        total_execution_time := stats.total_execution_time + executionTime }
      rlStore := store1
      cb := cbs
      trace := [Act.rateCheck 1 false]
      succeeded := false }

/-- Per-call inputs of one `collect_with_protection` invocation. -/
structure CallInput where
  corrId : String
  startTime : ℚ
  endTime : ℚ
  attemptTime : Nat → ℚ
  jf : Nat → ℚ
  fetch : Nat → Except Exc CollectionResult

/-- A sequence of `collect_with_protection` calls on one collector,
threading statistics, rate-limit store and breaker state. -/
def runSequence (rlCfg : RateLimitConfig) (cbCfg : CircuitBreakerConfig)
    (retryCfg : RetryConfig) (sourceName : String)
    (st : CollectorStats × ZSet × CBState) (l : List CallInput) :
    CollectorStats × ZSet × CBState :=
  l.foldl
    (fun st inp =>
      let r := collectWithProtection rlCfg cbCfg retryCfg sourceName
        inp.corrId st.1 st.2.1 st.2.2 inp.startTime inp.endTime
        inp.attemptTime inp.jf inp.fetch
      (r.stats, r.rlStore, r.cb))
    st

/-! ## Helper lemmas -/

/-- With `retryable_exceptions` left as `None`, the default list installed
by `RetryHandler.__init__` ends in the base `Exception` class, which
every exception matches. -/
lemma isRetryable_of_default (cfg : RetryConfig)
    (h : cfg.retryable_exceptions = none) (e : Exc) :
    isRetryable cfg e = true := by
  simp [isRetryable, effectiveRetryable, h, defaultRetryable, isinstance]

/-- Invocation count of the retry loop against an operation that fails
with a retryable error on every attempt: all remaining attempts are
consumed. -/
lemma retryLoop_allFail_invocations {σ A : Type} (cfg : RetryConfig)
    (jf : Nat → ℚ) (errs : Nat → Exc)
    (h : ∀ n, isRetryable cfg (errs n) = true) :
    ∀ (r attempt inv : Nat) (ds : List ℚ) (s : σ),
      (retryLoop cfg jf (fun n s => (Except.error (errs n), s))
          attempt (r + 1) s inv ds : RetryRun σ A).invocations
        = inv + r + 1 := by
  intro r
  induction r with
  | zero =>
    intro attempt inv ds s
    simp [retryLoop, h]
  | succ r ih =>
    intro attempt inv ds s
    rw [retryLoop]
    simp only [h, if_true, Nat.succ_ne_zero, if_false]
    rw [ih]
    omega

/-! ## Claims about retry_handler.py -/

/-- The `RetryConfig(max_attempts=3, base_delay=1.0, backoff_factor=2.0,
jitter=False)` of the retry-exhaustion scenario; `strategy` and
`max_delay` keep their dataclass defaults (exponential, 60). -/
def retryExhaustionConfig : RetryConfig :=
  { max_attempts := 3, base_delay := 1, backoff_factor := 2, jitter := false }

/-- A generic `Exception`-class error, used as concrete witness input. -/
def boomExc : Exc := ⟨.exception, "boom"⟩

/-- A ValueError-like error: not in any explicit retryable list. -/
def valueErrorExc : Exc := ⟨.custom 0, "ValueError"⟩

/-- C5: with max_attempts = 3, base_delay = 1.0, backoff_factor = 2.0,
exponential strategy and jitter disabled, an operation that always
raises a retryable error is invoked exactly 3 times, the computed
delays between attempts are 1.0 then 2.0 seconds (base_delay *
backoff_factor^(attempt-1), clamped to max_delay), and after the third
attempt the last error is re-raised. -/
theorem c5_retry_exhaustion {A : Type} (jf : Nat → ℚ) (errs : Nat → Exc)
    (h : ∀ n, isRetryable retryExhaustionConfig (errs n) = true) :
    (execute (A := A) retryExhaustionConfig jf
        (fun n => .error (errs n))).invocations = 3 ∧
    (execute (A := A) retryExhaustionConfig jf
        (fun n => .error (errs n))).delays = [1, 2] ∧
    (execute (A := A) retryExhaustionConfig jf
        (fun n => .error (errs n))).outcome = .error (errs 3) := by
  simp only [retryExhaustionConfig] at h
  refine ⟨?_, ?_, ?_⟩ <;>
    norm_num [execute, executeS, retryLoop, retryExhaustionConfig,
      calculateDelay, h]

/-- Concrete instance of C5: a constant `Exception`-class error. -/
theorem c5_witness :
    isRetryable retryExhaustionConfig boomExc = true ∧
    ((execute (A := Unit) retryExhaustionConfig (fun _ => 1)
        (fun _ => .error boomExc)).invocations = 3 ∧
     (execute (A := Unit) retryExhaustionConfig (fun _ => 1)
        (fun _ => .error boomExc)).delays = [1, 2] ∧
     (execute (A := Unit) retryExhaustionConfig (fun _ => 1)
        (fun _ => .error boomExc)).outcome = .error boomExc) :=
  ⟨rfl, c5_retry_exhaustion (fun _ => 1) (fun _ => boomExc) (fun _ => rfl)⟩

/-- C6: an operation whose raised error is not in the configured
retryable set is invoked exactly once; the error is re-raised
immediately and no backoff delay is computed. -/
theorem c6_nonretryable_short_circuit {A : Type} (cfg : RetryConfig)
    (jf : Nat → ℚ) (op : Nat → Except Exc A) (e : Exc)
    (h1 : 1 ≤ cfg.max_attempts) (h2 : op 1 = .error e)
    (h3 : isRetryable cfg e = false) :
    (execute cfg jf op).outcome = .error e ∧
    (execute cfg jf op).invocations = 1 ∧
    (execute cfg jf op).delays = [] := by
  obtain ⟨m, hm⟩ : ∃ m, cfg.max_attempts = m + 1 :=
    ⟨cfg.max_attempts - 1, by omega⟩
  unfold execute executeS
  rw [hm, retryLoop]
  simp [h2, h3]

/-- Concrete instance of C6: a ValueError-like error against the
`RetryConfigs.api_call` retryable set. -/
theorem c6_witness :
    1 ≤ RetryConfigs.api_call.max_attempts ∧
    isRetryable RetryConfigs.api_call valueErrorExc = false ∧
    ((execute (A := Unit) RetryConfigs.api_call (fun _ => 1)
        (fun _ => .error valueErrorExc)).outcome = .error valueErrorExc ∧
     (execute (A := Unit) RetryConfigs.api_call (fun _ => 1)
        (fun _ => .error valueErrorExc)).invocations = 1 ∧
     (execute (A := Unit) RetryConfigs.api_call (fun _ => 1)
        (fun _ => .error valueErrorExc)).delays = []) :=
  ⟨by decide, by decide,
   c6_nonretryable_short_circuit RetryConfigs.api_call (fun _ => 1)
     (fun _ => .error valueErrorExc) valueErrorExc (by decide) rfl (by decide)⟩

/-- C9: a `RetryConfig` with `retryable_exceptions` left unset (as
`BaseCollector._init_retry_handler` builds for every strategy other
than api_call and web_scraping) makes every exception retryable - the
default list installed by `RetryHandler.__init__` contains the base
`Exception` class - so an operation failing on every attempt (with any
errors whatsoever, circuit-open rejections included) is retried up to
`max_attempts` invocations. -/
theorem c9_default_retryable_all (maxAttempts : Nat)
    (baseDelay maxDelay : ℚ) (jitter : Bool) (e : Exc) (jf : Nat → ℚ)
    (errs : Nat → Exc) (h : 1 ≤ maxAttempts) :
    isRetryable (initRetryHandlerConfig maxAttempts baseDelay maxDelay jitter)
      e = true ∧
    (execute (A := Unit)
        (initRetryHandlerConfig maxAttempts baseDelay maxDelay jitter) jf
        (fun n => .error (errs n))).invocations = maxAttempts := by
  constructor
  · exact isRetryable_of_default _ rfl e
  · obtain ⟨m, hm⟩ : ∃ m, maxAttempts = m + 1 :=
      ⟨maxAttempts - 1, by omega⟩
    have hinv := retryLoop_allFail_invocations (σ := Unit) (A := Unit)
      (initRetryHandlerConfig maxAttempts baseDelay maxDelay jitter) jf errs
      (fun n => isRetryable_of_default _ rfl _) m 1 0 [] ()
    unfold execute executeS
    show (retryLoop (initRetryHandlerConfig maxAttempts baseDelay maxDelay jitter)
      jf (fun n s => (Except.error (errs n), s)) 1
      (initRetryHandlerConfig maxAttempts baseDelay maxDelay jitter).max_attempts
      () 0 []).invocations = maxAttempts
    have hma : (initRetryHandlerConfig maxAttempts baseDelay maxDelay
      jitter).max_attempts = m + 1 := hm
    rw [hma, hinv]
    omega

/-- The circuit-open rejection exception, as a concrete witness input. -/
def openRejectionExc : Exc :=
  ⟨.circuitBreakerOpenError, "Circuit breaker X is open"⟩

/-- Concrete instance of C9: the circuit-open rejection is retried and
three attempts are consumed under the default retryable set. -/
theorem c9_witness :
    1 ≤ 3 ∧
    (isRetryable (initRetryHandlerConfig 3 1 60 true) openRejectionExc = true ∧
     (execute (A := Unit) (initRetryHandlerConfig 3 1 60 true) (fun _ => 1)
        (fun _ => .error openRejectionExc)).invocations = 3) :=
  ⟨by decide,
   c9_default_retryable_all 3 1 60 true openRejectionExc (fun _ => 1)
     (fun _ => openRejectionExc) (by decide)⟩

/-! ## Claims about circuit_breaker.py -/

/-- While Closed and below threshold, each qualifying failure increments
`failure_count` and leaves the breaker Closed. -/
lemma runFail_closed (cfg : CircuitBreakerConfig) :
    ∀ (l : List (ℚ × Exc)) (s : CBState), s.state = .closed →
      (∀ te ∈ l, isinstance te.2.cls cfg.expected_exception = true) →
      s.failure_count + l.length < cfg.failure_threshold →
      (runFailCalls cfg s l).state = .closed ∧
      (runFailCalls cfg s l).failure_count = s.failure_count + l.length := by
  intro l
  induction l with
  | nil =>
    intro s hs hq hlt
    simp [runFailCalls, hs]
  | cons te l ih =>
    intro s hs hq hlt
    have hqe : isinstance te.2.cls cfg.expected_exception = true :=
      hq te (List.mem_cons_self te l)
    have hnotopen : ¬ (cfg.failure_threshold ≤ s.failure_count + 1) := by
      simp at hlt; omega
    have hstep : (cbCall cfg s te.1 (.error te.2 : Except Exc Unit)).2.1 =
        { s with
          total_requests := s.total_requests + 1
          failure_count := s.failure_count + 1
          total_failures := s.total_failures + 1
          last_failure_time := te.1 } := by
      simp [cbCall, canExecute, hs, onFailure, hqe, hnotopen]
    have hrun : runFailCalls cfg s (te :: l) =
        runFailCalls cfg
          { s with
            total_requests := s.total_requests + 1
            failure_count := s.failure_count + 1
            total_failures := s.total_failures + 1
            last_failure_time := te.1 } l := by
      simp [runFailCalls, hstep]
    rw [hrun]
    have := ih
      { s with
        total_requests := s.total_requests + 1
        failure_count := s.failure_count + 1
        total_failures := s.total_failures + 1
        last_failure_time := te.1 }
      (by simp [hs]) (fun x hx => hq x (List.mem_cons_of_mem te hx))
      (by simp at hlt ⊢; omega)
    refine ⟨this.1, ?_⟩
    rw [this.2]
    simp
    omega

/-- The qualifying failure that brings `failure_count` up to the
threshold transitions a Closed breaker to Open and records the failure
time. -/
lemma runFail_opens (cfg : CircuitBreakerConfig) (l : List (ℚ × Exc))
    (tl : ℚ) (el : Exc) (s : CBState) (hs : s.state = .closed)
    (hq : ∀ te ∈ l ++ [(tl, el)],
      isinstance te.2.cls cfg.expected_exception = true)
    (hlen : s.failure_count + (l ++ [(tl, el)]).length
      = cfg.failure_threshold) :
    (runFailCalls cfg s (l ++ [(tl, el)])).state = .opened ∧
    (runFailCalls cfg s (l ++ [(tl, el)])).last_failure_time = tl := by
  have hmid := runFail_closed cfg l s hs
    (fun x hx => hq x (List.mem_append_left _ hx))
    (by simp at hlen ⊢; omega)
  have hqe : isinstance el.cls cfg.expected_exception = true :=
    hq (tl, el) (List.mem_append_right _ (List.mem_singleton.mpr rfl))
  have happ : runFailCalls cfg s (l ++ [(tl, el)]) =
      (cbCall cfg (runFailCalls cfg s l) tl
        (.error el : Except Exc Unit)).2.1 := by
    simp [runFailCalls, List.foldl_append]
  have hthr : cfg.failure_threshold ≤ (runFailCalls cfg s l).failure_count + 1 := by
    rw [hmid.2]; simp at hlen; omega
  rw [happ]
  simp [cbCall, canExecute, hmid.1, onFailure, hqe, hthr, transitionToOpen]

/-- A call against an Open breaker before the recovery timeout is
rejected with `CircuitBreakerOpenError`, without mutating the breaker
and without invoking the wrapped operation. -/
lemma cbCall_open_rejects {A : Type} (cfg : CircuitBreakerConfig)
    (s : CBState) (now : ℚ) (outcome : Except Exc A)
    (hs : s.state = .opened)
    (ht : now - s.last_failure_time < cfg.recovery_timeout) :
    cbCall cfg s now outcome = (.error (cbOpenError s), s, false) := by
  simp [cbCall, canExecute, hs, not_le.mpr ht]

/-- C3: from the initial Closed state, `failure_threshold` consecutive
qualifying failures (each matching `expected_exception`) move the
breaker to Open and record `last_failure_time`; every call attempted
while Open, before `recovery_timeout` seconds have elapsed since
`last_failure_time`, returns the circuit-open error without invoking
the wrapped operation and without changing the state. -/
theorem c3_breaker_opens_then_rejects {A : Type}
    (cfg : CircuitBreakerConfig) (name : String) (t0 : ℚ)
    (l : List (ℚ × Exc)) (tl : ℚ) (el : Exc) (now : ℚ)
    (outcome : Except Exc A)
    (hlen : (l ++ [(tl, el)]).length = cfg.failure_threshold)
    (hq : ∀ te ∈ l ++ [(tl, el)],
      isinstance te.2.cls cfg.expected_exception = true)
    (hnow : now - tl < cfg.recovery_timeout) :
    (runFailCalls cfg (cbInit name t0) (l ++ [(tl, el)])).state = .opened ∧
    (runFailCalls cfg (cbInit name t0) (l ++ [(tl, el)])).last_failure_time
      = tl ∧
    cbCall cfg (runFailCalls cfg (cbInit name t0) (l ++ [(tl, el)])) now
        outcome
      = (.error (cbOpenError
            (runFailCalls cfg (cbInit name t0) (l ++ [(tl, el)]))),
         runFailCalls cfg (cbInit name t0) (l ++ [(tl, el)]), false) := by
  have hopens := runFail_opens cfg l tl el (cbInit name t0) rfl hq
    (by simpa [cbInit] using hlen)
  refine ⟨hopens.1, hopens.2, ?_⟩
  exact cbCall_open_rejects cfg _ now outcome hopens.1
    (by rw [hopens.2]; exact hnow)

/-- Concrete instance of C3: `failure_threshold = 3`, three qualifying
failures at t = 0, a call at t = 5 with `recovery_timeout = 10`. -/
theorem c3_witness :
    ([((0 : ℚ), boomExc), (0, boomExc)] ++ [((0 : ℚ), boomExc)]).length
      = (3 : Nat) ∧
    (∀ te ∈ [((0 : ℚ), boomExc), (0, boomExc)] ++ [((0 : ℚ), boomExc)],
      isinstance te.2.cls ExcClass.exception = true) ∧
    ((5 : ℚ) - 0 < (10 : ℚ)) ∧
    ((runFailCalls ⟨3, 10, .exception, 2⟩ (cbInit "X" 0)
        ([((0 : ℚ), boomExc), (0, boomExc)] ++ [((0 : ℚ), boomExc)])).state
      = .opened ∧
     (runFailCalls ⟨3, 10, .exception, 2⟩ (cbInit "X" 0)
        ([((0 : ℚ), boomExc), (0, boomExc)] ++ [((0 : ℚ), boomExc)])).last_failure_time
      = 0 ∧
     cbCall ⟨3, 10, .exception, 2⟩
        (runFailCalls ⟨3, 10, .exception, 2⟩ (cbInit "X" 0)
          ([((0 : ℚ), boomExc), (0, boomExc)] ++ [((0 : ℚ), boomExc)]))
        5 (.ok () : Except Exc Unit)
      = (.error (cbOpenError
            (runFailCalls ⟨3, 10, .exception, 2⟩ (cbInit "X" 0)
              ([((0 : ℚ), boomExc), (0, boomExc)] ++ [((0 : ℚ), boomExc)]))),
         runFailCalls ⟨3, 10, .exception, 2⟩ (cbInit "X" 0)
          ([((0 : ℚ), boomExc), (0, boomExc)] ++ [((0 : ℚ), boomExc)]),
         false)) :=
  ⟨by decide, by decide, by norm_num,
   c3_breaker_opens_then_rejects ⟨3, 10, .exception, 2⟩ "X" 0
     [((0 : ℚ), boomExc), (0, boomExc)] 0 boomExc 5 (.ok ())
     (by decide) (by decide) (by norm_num)⟩

/-- While Half-Open and below the success threshold, each success
increments `success_count` and leaves the breaker Half-Open. -/
lemma runSucc_halfOpen (cfg : CircuitBreakerConfig) :
    ∀ (l : List ℚ) (s : CBState), s.state = .halfOpen →
      s.success_count + l.length < cfg.success_threshold →
      (runSuccessCalls cfg s l).state = .halfOpen ∧
      (runSuccessCalls cfg s l).success_count
        = s.success_count + l.length := by
  intro l
  induction l with
  | nil =>
    intro s hs hlt
    simp [runSuccessCalls, hs]
  | cons t l ih =>
    intro s hs hlt
    have hnotclose : ¬ (cfg.success_threshold ≤ s.success_count + 1) := by
      simp at hlt; omega
    have hstep : (cbCall cfg s t (.ok () : Except Exc Unit)).2.1 =
        { s with
          total_requests := s.total_requests + 1
          success_count := s.success_count + 1
          total_successes := s.total_successes + 1 } := by
      simp [cbCall, canExecute, hs, onSuccess, hnotclose]
    have hrun : runSuccessCalls cfg s (t :: l) =
        runSuccessCalls cfg
          { s with
            total_requests := s.total_requests + 1
            success_count := s.success_count + 1
            total_successes := s.total_successes + 1 } l := by
      simp [runSuccessCalls, hstep]
    rw [hrun]
    have := ih
      { s with
        total_requests := s.total_requests + 1
        success_count := s.success_count + 1
        total_successes := s.total_successes + 1 }
      (by simp [hs]) (by simp at hlt ⊢; omega)
    refine ⟨this.1, ?_⟩
    rw [this.2]
    simp
    omega

/-- The success that brings `success_count` up to `success_threshold`
closes a Half-Open breaker. -/
lemma runSucc_closes (cfg : CircuitBreakerConfig) (l : List ℚ) (tl : ℚ)
    (s : CBState) (hs : s.state = .halfOpen)
    (hlen : s.success_count + (l ++ [tl]).length = cfg.success_threshold) :
    (runSuccessCalls cfg s (l ++ [tl])).state = .closed := by
  have hmid := runSucc_halfOpen cfg l s hs (by simp at hlen ⊢; omega)
  have happ : runSuccessCalls cfg s (l ++ [tl]) =
      (cbCall cfg (runSuccessCalls cfg s l) tl
        (.ok () : Except Exc Unit)).2.1 := by
    simp [runSuccessCalls, List.foldl_append]
  have hthr : cfg.success_threshold
      ≤ (runSuccessCalls cfg s l).success_count + 1 := by
    rw [hmid.2]; simp at hlen; omega
  rw [happ]
  simp [cbCall, canExecute, hmid.1, onSuccess, hthr, transitionToClosed]

/-- C4: a call against an Open breaker at or after `recovery_timeout`
since `last_failure_time` is gated through: `_can_execute` transitions
the breaker to Half-Open (resetting `success_count`) and the wrapped
operation is invoked as a probe; from Half-Open, `success_threshold`
consecutive successes close the breaker; a single qualifying failure
while Half-Open reopens it immediately. -/
theorem c4_breaker_recovery {A : Type} (cfg : CircuitBreakerConfig)
    (s sHalf sProbe : CBState) (now tf : ℚ) (outcome : Except Exc A)
    (l : List ℚ) (tl : ℚ) (e : Exc)
    (h1 : s.state = .opened)
    (h2 : cfg.recovery_timeout ≤ now - s.last_failure_time)
    (h3 : sHalf.state = .halfOpen) (h4 : sHalf.success_count = 0)
    (h5 : (l ++ [tl]).length = cfg.success_threshold)
    (h6 : sProbe.state = .halfOpen)
    (h7 : isinstance e.cls cfg.expected_exception = true) :
    (canExecute cfg s now).1 = true ∧
    (canExecute cfg s now).2.state = .halfOpen ∧
    (canExecute cfg s now).2.success_count = 0 ∧
    (cbCall cfg s now outcome).2.2 = true ∧
    (runSuccessCalls cfg sHalf (l ++ [tl])).state = .closed ∧
    (cbCall cfg sProbe tf (.error e : Except Exc Unit)).2.1.state
      = .opened := by
  have hgate : canExecute cfg s now = (true, transitionToHalfOpen s now) := by
    simp [canExecute, h1, h2]
  refine ⟨by rw [hgate], by rw [hgate]; rfl, by rw [hgate]; rfl, ?_, ?_, ?_⟩
  · cases outcome <;> simp [cbCall, hgate]
  · exact runSucc_closes cfg l tl sHalf h3 (by rw [h4]; simpa using h5)
  · simp [cbCall, canExecute, h6, onFailure, h7, transitionToOpen]

/-- Concrete instance of C4: `recovery_timeout = 10`, last failure at
t = 0, probe at t = 11; `success_threshold = 2` with successes at
t = 12, 13; a qualifying failure from Half-Open at t = 12. -/
theorem c4_witness :
    (CBState.mk "X" .opened 3 0 0 0 3 3 0).state = .opened ∧
    ((10 : ℚ) ≤ (11 : ℚ) - (CBState.mk "X" .opened 3 0 0 0 3 3 0).last_failure_time) ∧
    (CBState.mk "X" .halfOpen 3 0 0 11 3 3 0).state = .halfOpen ∧
    (CBState.mk "X" .halfOpen 3 0 0 11 3 3 0).success_count = 0 ∧
    (([(12 : ℚ)] ++ [(13 : ℚ)]).length = (2 : Nat)) ∧
    isinstance boomExc.cls ExcClass.exception = true ∧
    ((canExecute ⟨3, 10, .exception, 2⟩ (CBState.mk "X" .opened 3 0 0 0 3 3 0) 11).1 = true ∧
     (canExecute ⟨3, 10, .exception, 2⟩ (CBState.mk "X" .opened 3 0 0 0 3 3 0) 11).2.state = .halfOpen ∧
     (canExecute ⟨3, 10, .exception, 2⟩ (CBState.mk "X" .opened 3 0 0 0 3 3 0) 11).2.success_count = 0 ∧
     (cbCall ⟨3, 10, .exception, 2⟩ (CBState.mk "X" .opened 3 0 0 0 3 3 0) 11
        (.ok () : Except Exc Unit)).2.2 = true ∧
     (runSuccessCalls ⟨3, 10, .exception, 2⟩
        (CBState.mk "X" .halfOpen 3 0 0 11 3 3 0) ([(12 : ℚ)] ++ [(13 : ℚ)])).state = .closed ∧
     (cbCall ⟨3, 10, .exception, 2⟩ (CBState.mk "X" .halfOpen 3 0 0 11 3 3 0) 12
        (.error boomExc : Except Exc Unit)).2.1.state = .opened) :=
  ⟨rfl, by norm_num, rfl, rfl, by decide, by decide,
   c4_breaker_recovery ⟨3, 10, .exception, 2⟩
     (CBState.mk "X" .opened 3 0 0 0 3 3 0)
     (CBState.mk "X" .halfOpen 3 0 0 11 3 3 0)
     (CBState.mk "X" .halfOpen 3 0 0 11 3 3 0) 11 12 (.ok ())
     [(12 : ℚ)] 13 boomExc rfl (by norm_num) rfl rfl (by decide) rfl
     (by decide)⟩

/-! ## Claims about rate_limiter.py -/

/-- The scenario configuration `RateLimitConfig(max_requests=5,
window_seconds=60)`. -/
def scenarioRlConfig : RateLimitConfig :=
  { max_requests := 5, window_seconds := 60 }

/-- Six sequential unit-cost admission requests on one key, one second
apart, at realistic clock values. -/
def sixRequests : List (ℚ × ℚ) :=
  [(1000, 1), (1001, 1), (1002, 1), (1003, 1), (1004, 1), (1005, 1)]

/-- C2 (evaluation at the failing input): with max_requests = 5 and
window_seconds = 60, six sequential unit-cost `is_allowed` calls within
the same window are ALL admitted - the pipelined
`zremrangebyscore(key, 0, now - window_seconds)` prunes by score, and
the score of every stored entry is its cost (`zadd(key,
{str(now): cost})` puts the timestamp in the member and the cost in the
score), so each call clears the whole window before checking. The total
admitted cost inside the trailing 60-second window reaches 6 > 5,
refuting the admission-bound invariant even without concurrency; the
separate read-then-check-then-zadd sequence additionally breaks the
required atomicity under concurrent access. -/
theorem c2_over_admission :
    (runAdmissions scenarioRlConfig [] sixRequests).2.map
      (fun r => r.2.2) = [true, true, true, true, true, true] ∧
    admittedCostWithin (runAdmissions scenarioRlConfig [] sixRequests).2
      1005 60 = 6 ∧
    (scenarioRlConfig.max_requests : ℚ) < 6 := by
  refine ⟨?_, ?_, ?_⟩ <;>
    norm_num [runAdmissions, sixRequests, scenarioRlConfig, is_allowed,
      zremrangebyscore, sumScores, zadd, getRemainingTime, List.filter,
      admittedCostWithin]

/-- C8 (counterexample): `get_status` mutates the stored window. With
window_seconds = 60 at t = 1000, a single stored entry `(500, 1)`
(member 500, score = cost 1) is removed by the
`zremrangebyscore(key, 0, 940)` that `get_status` issues, so the entry
set after the call differs from the one before. -/
theorem c8_counterexample :
    (get_status scenarioRlConfig 1000 [((500 : ℚ), (1 : ℚ))]).2
      ≠ [((500 : ℚ), (1 : ℚ))] := by
  norm_num [get_status, scenarioRlConfig, zremrangebyscore, zscore,
    List.filter]

/-- C8 (amended): `get_status` reports the count of the key entries that
survive its pruning write: it first removes every entry whose score
lies in `[0, now - window_seconds]` - mutating the stored window - and
the stored entry set after the call is a (possibly strict) sublist of
the one before; `current_count` is the size of what remains. -/
theorem c8_get_status_prunes (cfg : RateLimitConfig) (now : ℚ)
    (store : ZSet) :
    (get_status cfg now store).2
      = zremrangebyscore store 0 (now - (cfg.window_seconds : ℚ)) ∧
    ((get_status cfg now store).2).Sublist store ∧
    (get_status cfg now store).1.current_count
      = (get_status cfg now store).2.length := by
  refine ⟨rfl, ?_, rfl⟩
  exact List.filter_sublist store

/-! ## Claims about base_collector.py -/

/-- No rate-limit check is ever emitted by the retry loop: the attempt
actions that follow the single admission check contain no `rateCheck`. -/
lemma countP_attempts_zero (l : List Nat) :
    (l.map (fun i => Act.attempt (i + 1))).countP Act.isRateCheck = 0 := by
  induction l with
  | nil => rfl
  | cons a l ih => simp [List.countP_cons, Act.isRateCheck, ih]

/-- C1: `collect_with_protection` returns a `CollectionResult` for every
fetch operation (it is total - no exception reaches the caller), and
whenever the call terminates in failure (exhausted retries,
non-retryable error, open-circuit rejection, or rate-limit denial) the
returned result has empty data, a non-empty errors list, quality_score
0.0, and execution_time >= 0 (given the second clock reading is not
before the first). -/
theorem c1_never_throw_degraded (rlCfg : RateLimitConfig)
    (cbCfg : CircuitBreakerConfig) (retryCfg : RetryConfig)
    (sourceName corrId : String) (stats : CollectorStats) (store : ZSet)
    (cbs : CBState) (startTime endTime : ℚ) (attemptTime : Nat → ℚ)
    (jf : Nat → ℚ) (fetch : Nat → Except Exc CollectionResult)
    (h : startTime ≤ endTime)
    (hfail : (collectWithProtection rlCfg cbCfg retryCfg sourceName corrId
      stats store cbs startTime endTime attemptTime jf fetch).succeeded
        = false) :
    (collectWithProtection rlCfg cbCfg retryCfg sourceName corrId stats
      store cbs startTime endTime attemptTime jf fetch).result.data = [] ∧
    (collectWithProtection rlCfg cbCfg retryCfg sourceName corrId stats
      store cbs startTime endTime attemptTime jf fetch).result.errors ≠ [] ∧
    (collectWithProtection rlCfg cbCfg retryCfg sourceName corrId stats
      store cbs startTime endTime attemptTime jf fetch).result.quality_score
      = 0 ∧
    0 ≤ (collectWithProtection rlCfg cbCfg retryCfg sourceName corrId stats
      store cbs startTime endTime attemptTime jf fetch).result.execution_time := by
  revert hfail
  simp only [collectWithProtection]
  split
  · split
    · intro hfail
      simp at hfail
    · intro _
      refine ⟨rfl, by simp, rfl, ?_⟩
      simpa using sub_nonneg.mpr h
  · intro _
    refine ⟨rfl, by simp, rfl, ?_⟩
    simpa using sub_nonneg.mpr h

/-- Concrete instance of C1: a fetch operation that always raises, under
default-like configuration; the call returns the degraded result. -/
theorem c1_witness :
    ((0 : ℚ) ≤ 1) ∧
    (collectWithProtection ⟨100, 60, 10, 1⟩ ⟨5, 60, .exception, 2⟩ {}
      "TestCollector" "cid" {} [] (cbInit "TestCollector" 0) 0 1
      (fun n => (n : ℚ)) (fun _ => 1) (fun _ => .error boomExc)).succeeded
      = false ∧
    ((collectWithProtection ⟨100, 60, 10, 1⟩ ⟨5, 60, .exception, 2⟩ {}
        "TestCollector" "cid" {} [] (cbInit "TestCollector" 0) 0 1
        (fun n => (n : ℚ)) (fun _ => 1) (fun _ => .error boomExc)).result.data
      = [] ∧
     (collectWithProtection ⟨100, 60, 10, 1⟩ ⟨5, 60, .exception, 2⟩ {}
        "TestCollector" "cid" {} [] (cbInit "TestCollector" 0) 0 1
        (fun n => (n : ℚ)) (fun _ => 1) (fun _ => .error boomExc)).result.errors
      ≠ [] ∧
     (collectWithProtection ⟨100, 60, 10, 1⟩ ⟨5, 60, .exception, 2⟩ {}
        "TestCollector" "cid" {} [] (cbInit "TestCollector" 0) 0 1
        (fun n => (n : ℚ)) (fun _ => 1) (fun _ => .error boomExc)).result.quality_score
      = 0 ∧
     0 ≤ (collectWithProtection ⟨100, 60, 10, 1⟩ ⟨5, 60, .exception, 2⟩ {}
        "TestCollector" "cid" {} [] (cbInit "TestCollector" 0) 0 1
        (fun n => (n : ℚ)) (fun _ => 1) (fun _ => .error boomExc)).result.execution_time) :=
  ⟨by norm_num,
   by
    norm_num [collectWithProtection, is_allowed, zremrangebyscore, sumScores,
      zadd, executeS, retryLoop, cbCall, canExecute, onFailure, onSuccess,
      transitionToOpen, cbInit, isRetryable, effectiveRetryable,
      defaultRetryable, isinstance, calculateDelay, boomExc, List.filter],
   c1_never_throw_degraded ⟨100, 60, 10, 1⟩ ⟨5, 60, .exception, 2⟩ {}
     "TestCollector" "cid" {} [] (cbInit "TestCollector" 0) 0 1
     (fun n => (n : ℚ)) (fun _ => 1) (fun _ => .error boomExc)
     (by norm_num)
     (by
      norm_num [collectWithProtection, is_allowed, zremrangebyscore,
        sumScores, zadd, executeS, retryLoop, cbCall, canExecute, onFailure,
        onSuccess, transitionToOpen, cbInit, isRetryable, effectiveRetryable,
        defaultRetryable, isinstance, calculateDelay, boomExc, List.filter])⟩

/-- C7: every `collect_with_protection` invocation performs exactly one
rate-limiter admission check, with cost 1, before the retry loop: the
action trace starts with the single `rateCheck` and no admission check
occurs among the retry attempts that follow. -/
theorem c7_single_admission_check (rlCfg : RateLimitConfig)
    (cbCfg : CircuitBreakerConfig) (retryCfg : RetryConfig)
    (sourceName corrId : String) (stats : CollectorStats) (store : ZSet)
    (cbs : CBState) (startTime endTime : ℚ) (attemptTime : Nat → ℚ)
    (jf : Nat → ℚ) (fetch : Nat → Except Exc CollectionResult) :
    ∃ b rest,
      (collectWithProtection rlCfg cbCfg retryCfg sourceName corrId stats
        store cbs startTime endTime attemptTime jf fetch).trace
        = Act.rateCheck 1 b :: rest ∧
      rest.countP Act.isRateCheck = 0 := by
  simp only [collectWithProtection]
  split
  · split
    · exact ⟨true, _, rfl, countP_attempts_zero _⟩
    · exact ⟨true, _, rfl, countP_attempts_zero _⟩
  · exact ⟨false, [], rfl, rfl⟩

/-- Each `collect_with_protection` call increments `total_collections`
by one and exactly one of `successful_collections` /
`failed_collections` by one. -/
lemma cwp_stats_step (rlCfg : RateLimitConfig)
    (cbCfg : CircuitBreakerConfig) (retryCfg : RetryConfig)
    (sourceName corrId : String) (stats : CollectorStats) (store : ZSet)
    (cbs : CBState) (startTime endTime : ℚ) (attemptTime : Nat → ℚ)
    (jf : Nat → ℚ) (fetch : Nat → Except Exc CollectionResult) :
    (collectWithProtection rlCfg cbCfg retryCfg sourceName corrId stats
      store cbs startTime endTime attemptTime jf fetch).stats.total_collections
      = stats.total_collections + 1 ∧
    (((collectWithProtection rlCfg cbCfg retryCfg sourceName corrId stats
        store cbs startTime endTime attemptTime jf fetch).stats.successful_collections
        = stats.successful_collections + 1 ∧
      (collectWithProtection rlCfg cbCfg retryCfg sourceName corrId stats
        store cbs startTime endTime attemptTime jf fetch).stats.failed_collections
        = stats.failed_collections) ∨
     ((collectWithProtection rlCfg cbCfg retryCfg sourceName corrId stats
        store cbs startTime endTime attemptTime jf fetch).stats.successful_collections
        = stats.successful_collections ∧
      (collectWithProtection rlCfg cbCfg retryCfg sourceName corrId stats
        store cbs startTime endTime attemptTime jf fetch).stats.failed_collections
        = stats.failed_collections + 1)) := by
  simp only [collectWithProtection]
  split
  · split
    · exact ⟨rfl, Or.inl ⟨rfl, rfl⟩⟩
    · exact ⟨rfl, Or.inr ⟨rfl, rfl⟩⟩
  · exact ⟨rfl, Or.inr ⟨rfl, rfl⟩⟩

/-- The statistics invariant `total = successful + failed` is preserved
by every call of a call sequence. -/
lemma runSequence_stats_inv (rlCfg : RateLimitConfig)
    (cbCfg : CircuitBreakerConfig) (retryCfg : RetryConfig)
    (sourceName : String) :
    ∀ (l : List CallInput) (st : CollectorStats × ZSet × CBState),
      st.1.total_collections
        = st.1.successful_collections + st.1.failed_collections →
      (runSequence rlCfg cbCfg retryCfg sourceName st l).1.total_collections
        = (runSequence rlCfg cbCfg retryCfg sourceName st l).1.successful_collections
          + (runSequence rlCfg cbCfg retryCfg sourceName st l).1.failed_collections := by
  intro l
  induction l with
  | nil =>
    intro st hinv
    simpa [runSequence] using hinv
  | cons inp l ih =>
    intro st hinv
    have hstep := cwp_stats_step rlCfg cbCfg retryCfg sourceName inp.corrId
      st.1 st.2.1 st.2.2 inp.startTime inp.endTime inp.attemptTime inp.jf
      inp.fetch
    have hcons : runSequence rlCfg cbCfg retryCfg sourceName st (inp :: l)
        = runSequence rlCfg cbCfg retryCfg sourceName
          (let r := collectWithProtection rlCfg cbCfg retryCfg sourceName
            inp.corrId st.1 st.2.1 st.2.2 inp.startTime inp.endTime
            inp.attemptTime inp.jf inp.fetch
           (r.stats, r.rlStore, r.cb)) l := by
      simp [runSequence]
    rw [hcons]
    refine ih _ ?_
    rcases hstep with ⟨h1, h2 | h2⟩ <;>
      simp only [] <;> omega

/-- C10: every completed `collect_with_protection` call increments
`total_collections` by exactly one and exactly one of
`successful_collections` / `failed_collections` by one; consequently
after any sequence of calls starting from freshly initialized
statistics, `total_collections = successful_collections +
failed_collections`. -/
theorem c10_stats_invariant (rlCfg : RateLimitConfig)
    (cbCfg : CircuitBreakerConfig) (retryCfg : RetryConfig)
    (sourceName : String) :
    (∀ (corrId : String) (stats : CollectorStats) (store : ZSet)
      (cbs : CBState) (startTime endTime : ℚ) (attemptTime : Nat → ℚ)
      (jf : Nat → ℚ) (fetch : Nat → Except Exc CollectionResult),
      (collectWithProtection rlCfg cbCfg retryCfg sourceName corrId stats
        store cbs startTime endTime attemptTime jf fetch).stats.total_collections
        = stats.total_collections + 1 ∧
      (((collectWithProtection rlCfg cbCfg retryCfg sourceName corrId stats
          store cbs startTime endTime attemptTime jf fetch).stats.successful_collections
          = stats.successful_collections + 1 ∧
        (collectWithProtection rlCfg cbCfg retryCfg sourceName corrId stats
          store cbs startTime endTime attemptTime jf fetch).stats.failed_collections
          = stats.failed_collections) ∨
       ((collectWithProtection rlCfg cbCfg retryCfg sourceName corrId stats
          store cbs startTime endTime attemptTime jf fetch).stats.successful_collections
          = stats.successful_collections ∧
        (collectWithProtection rlCfg cbCfg retryCfg sourceName corrId stats
          store cbs startTime endTime attemptTime jf fetch).stats.failed_collections
          = stats.failed_collections + 1))) ∧
    (∀ (t0 : ℚ) (l : List CallInput),
      (runSequence rlCfg cbCfg retryCfg sourceName
        ({}, [], cbInit sourceName t0) l).1.total_collections
        = (runSequence rlCfg cbCfg retryCfg sourceName
            ({}, [], cbInit sourceName t0) l).1.successful_collections
          + (runSequence rlCfg cbCfg retryCfg sourceName
              ({}, [], cbInit sourceName t0) l).1.failed_collections) :=
  ⟨fun corrId stats store cbs startTime endTime attemptTime jf fetch =>
    cwp_stats_step rlCfg cbCfg retryCfg sourceName corrId stats store cbs
      startTime endTime attemptTime jf fetch,
   fun t0 l =>
    runSequence_stats_inv rlCfg cbCfg retryCfg sourceName l
      ({}, [], cbInit sourceName t0) rfl⟩
